import Mathlib

/-!
Verification of the golden-file regression harness for LAMMPS angle styles
(`src/unittest/force-styles/angle_style.cpp`).

The harness compares live engine values (energies, stress tensors, per-atom
forces) against reference values from a YAML test configuration, across two
parallelism modes (serial "plain" and threaded "omp"), two settings of the
`newton_bond` flag, and four execution paths (fresh init, short run,
restart reload, data-file reload).  We embed the test configuration, the
exact sequence of assertions and tolerance comparisons each test performs,
and the command sequences issued by `init_lammps` / `restart_lammps`, and
prove properties of the resulting check lists and executions.

Real numbers are modelled by `ℚ`; every comparison margin relevant to the
claims is far from any binary-rounding boundary.
-/

namespace AngleTest

/-- A 3-vector of force components (`coord_t` in the C++ harness). -/
structure Coord where
  x : ℚ
  y : ℚ
  z : ℚ
deriving DecidableEq

/-- A 6-component symmetric stress tensor (`stress_t`), order xx yy zz xy xz yz. -/
structure StressT where
  xx : ℚ
  yy : ℚ
  zz : ℚ
  xy : ℚ
  xz : ℚ
  yz : ℚ
deriving DecidableEq

/-- The reference data model (`TestConfig` in the C++ harness): one scenario
together with its expected outputs. -/
structure TestConfig where
  epsilon : ℚ
  prerequisites : List (String × String)
  pre_commands : List String
  post_commands : List String
  input_file : String
  angle_style : String
  angle_coeff : List String
  extract : List (String × ℚ)
  natoms : ℕ
  init_energy : ℚ
  run_energy : ℚ
  init_stress : StressT
  run_stress : StressT
  init_forces : List Coord
  run_forces : List Coord
  basename : String

/-- Modelled from the spec: the pairwise floating-point comparator
`EXPECT_FP_LE_WITH_EPS(live, expected, eps)`.  Its body lives in the
harness header `test_main.h`, which is not among the provided sources; the
spec defines it as the scale-aware hybrid bound
`|live − expected| ≤ eps × max(1, |expected|)`. -/
def fpLeWithEps (live expected eps : ℚ) : Bool :=
  decide (|live - expected| ≤ eps * max 1 |expected|)

/-- Number of tolerance violations reported over a list of (live, expected)
pairs at a given tolerance: each failing pair yields one violation, and
checking continues past failures (non-fail-fast `EXPECT` semantics). -/
def toleranceViolations (pairs : List (ℚ × ℚ)) (eps : ℚ) : ℕ :=
  (pairs.filter (fun p => ! fpLeWithEps p.1 p.2 eps)).length

/-- The two parallelism modes of the test surface. -/
inductive Mode
  | serial
  | threaded
deriving DecidableEq

/-- Base tolerance of a mode: `epsilon` for the plain test, widened to
`5.0 * epsilon` for the omp test (line 607). -/
def baseTol (m : Mode) (cfg : TestConfig) : ℚ :=
  match m with
  | Mode.serial => cfg.epsilon
  | Mode.threaded => 5 * cfg.epsilon

/-- The four execution paths driven by the harness. -/
inductive Path
  | freshInit
  | shortRun
  | restartReload
  | dataReload
deriving DecidableEq

/-- Which quantity a comparison looks at.  `energyVsSum` is the
redundant-computation cross-check of the style energy against the
`compute reduce sum c_pe` scalar. -/
inductive Quantity
  | energy
  | stress
  | forces
  | energyVsSum
deriving DecidableEq

/-- Which reference value a comparison is made against. -/
inductive Reference
  | initE
  | runE
  | initS
  | runS
  | initF
  | runF
  | computeSum
deriving DecidableEq

/-- One step of a test body: a fatal structural assertion or a tolerance
comparison.  `compare p n q r k` compares quantity `q` at path `p` with
newton flag `n` against reference `r`, at tolerance `k * baseTol`. -/
inductive Check
  | assertNatomsNlocal
  | assertForcesLen (r : Reference)
  | compare (p : Path) (n : Bool) (q : Quantity) (r : Reference) (k : ℚ)
deriving DecidableEq

/-- The exact sequence of assertions and comparisons in `TEST(AngleStyle, plain)`
(lines 346–576), in source order.  Tolerance factors are multiples of the
local `epsilon` variable, which in this test equals `cfg.epsilon`. -/
def plainChecks : List Check :=
  [Check.assertNatomsNlocal,                                             -- line 370
   Check.assertForcesLen Reference.initF,                                -- line 378
   Check.compare Path.freshInit true Quantity.forces Reference.initF 1,  -- 380-382
   Check.compare Path.freshInit true Quantity.stress Reference.initS 1,  -- 390-395
   Check.compare Path.freshInit true Quantity.energy Reference.initE 1,  -- 400
   Check.assertForcesLen Reference.runF,                                 -- 411
   Check.compare Path.shortRun true Quantity.forces Reference.runF 10,   -- 414-416
   Check.compare Path.shortRun true Quantity.stress Reference.runS 1,    -- 423-428
   Check.compare Path.shortRun true Quantity.energy Reference.runE 1,    -- 435
   Check.compare Path.shortRun true Quantity.energyVsSum Reference.computeSum 1, -- 436
   Check.compare Path.freshInit false Quantity.forces Reference.initF 1, -- 449-451
   Check.compare Path.freshInit false Quantity.stress Reference.initS 2, -- 459-464
   Check.compare Path.freshInit false Quantity.energy Reference.initE 1, -- 469
   Check.compare Path.shortRun false Quantity.forces Reference.runF 10,  -- 481-483
   Check.compare Path.shortRun false Quantity.stress Reference.runS 1,   -- 490-495
   Check.compare Path.shortRun false Quantity.energy Reference.runE 1,   -- 502
   Check.compare Path.shortRun false Quantity.energyVsSum Reference.computeSum 1, -- 503
   Check.assertForcesLen Reference.initF,                                -- 514
   Check.compare Path.restartReload false Quantity.forces Reference.initF 1, -- 516-518
   Check.compare Path.restartReload false Quantity.stress Reference.initS 1, -- 526-531
   Check.compare Path.restartReload false Quantity.energy Reference.initE 1, -- 536
   Check.assertForcesLen Reference.initF,                                -- 547
   Check.compare Path.dataReload false Quantity.forces Reference.initF 1, -- 549-551
   Check.compare Path.dataReload false Quantity.stress Reference.initS 1, -- 559-564
   Check.compare Path.dataReload false Quantity.energy Reference.initE 1] -- 569

/-- `cfg.angle_style.substr(0,6) == "hybrid"`: the harness's test for a
composite (hybrid) angle style. -/
def startsWithHybrid (s : String) : Bool :=
  decide (s.data.take 6 = ['h', 'y', 'b', 'r', 'i', 'd'])

/-- The exact sequence of assertions and comparisons in `TEST(AngleStyle, omp)`
(lines 578–750), in source order.  Tolerance factors are multiples of the
local `epsilon` variable, which in this test equals `5 * cfg.epsilon`.
The energy cross-check is guarded by `angle_style.substr(0,6) != "hybrid"`
(lines 673 and 742). -/
def ompChecks (style : String) : List Check :=
  [Check.assertNatomsNlocal,                                             -- line 604
   Check.compare Path.freshInit true Quantity.forces Reference.initF 1,  -- 614-616
   Check.compare Path.freshInit true Quantity.stress Reference.initS 10, -- 625-630
   Check.compare Path.freshInit true Quantity.energy Reference.initE 1,  -- 635
   Check.assertForcesLen Reference.runF,                                 -- 646
   Check.compare Path.shortRun true Quantity.forces Reference.runF 10,   -- 649-651
   Check.compare Path.shortRun true Quantity.stress Reference.runS 10,   -- 658-663
   Check.compare Path.shortRun true Quantity.energy Reference.runE 1]    -- 670
  ++ (if startsWithHybrid style = false then
        [Check.compare Path.shortRun true Quantity.energyVsSum Reference.computeSum 1] -- 674
      else [])
  ++ [Check.compare Path.freshInit false Quantity.forces Reference.initF 1, -- 687-689
      Check.compare Path.freshInit false Quantity.stress Reference.initS 10, -- 697-702
      Check.compare Path.freshInit false Quantity.energy Reference.initE 1,  -- 707
      Check.compare Path.shortRun false Quantity.forces Reference.runF 10,   -- 718-720
      Check.compare Path.shortRun false Quantity.stress Reference.runS 10,   -- 727-732
      Check.compare Path.shortRun false Quantity.energy Reference.runE 1]    -- 739
  ++ (if startsWithHybrid style = false then
        [Check.compare Path.shortRun false Quantity.energyVsSum Reference.computeSum 1] -- 743
      else [])

/-- The check list a given mode runs for a given style under test. -/
def checks (m : Mode) (style : String) : List Check :=
  match m with
  | Mode.serial => plainChecks
  | Mode.threaded => ompChecks style

/-- Live engine state as observed by the comparator: particle counts, the
atom-id (`tag`) array, and the live values extracted at each (path, newton
flag) stage. -/
structure LiveState where
  natoms : ℕ
  nlocal : ℕ
  tag : ℕ → ℕ
  force : Path → Bool → ℕ → Coord
  stressOf : Path → Bool → StressT
  energyOf : Path → Bool → ℚ
  sumPe : Bool → ℚ

/-- The force reference named by a `Reference` tag (empty for non-force tags). -/
def refForces (cfg : TestConfig) (r : Reference) : List Coord :=
  match r with
  | Reference.initF => cfg.init_forces
  | Reference.runF => cfg.run_forces
  | _ => []

/-- The stress reference named by a `Reference` tag (zero for non-stress tags). -/
def refStress (cfg : TestConfig) (r : Reference) : StressT :=
  match r with
  | Reference.initS => cfg.init_stress
  | Reference.runS => cfg.run_stress
  | _ => ⟨0, 0, 0, 0, 0, 0⟩

/-- The energy reference named by a `Reference` tag (zero for non-energy tags). -/
def refEnergy (cfg : TestConfig) (r : Reference) : ℚ :=
  match r with
  | Reference.initE => cfg.init_energy
  | Reference.runE => cfg.run_energy
  | _ => 0

/-- The (live, expected) pairs one `compare` check runs through the
comparator.  Forces iterate `i = 0 .. nlocal-1` and address the reference
by the particle's 1-based id `tag[i]` (slot 0 of the reference is the
unused sentinel); stress compares the six components in order
xx yy zz xy xz yz. -/
def comparePairs (cfg : TestConfig) (live : LiveState) (p : Path) (n : Bool)
    (q : Quantity) (r : Reference) : List (ℚ × ℚ) :=
  match q with
  | Quantity.forces =>
      ((List.range live.nlocal).map (fun i =>
        let lv := live.force p n i
        let rv := (refForces cfg r).getD (live.tag i) ⟨0, 0, 0⟩
        [(lv.x, rv.x), (lv.y, rv.y), (lv.z, rv.z)])).flatten
  | Quantity.stress =>
      let lv := live.stressOf p n
      let rv := refStress cfg r
      [(lv.xx, rv.xx), (lv.yy, rv.yy), (lv.zz, rv.zz),
       (lv.xy, rv.xy), (lv.xz, rv.xz), (lv.yz, rv.yz)]
  | Quantity.energy => [(live.energyOf p n, refEnergy cfg r)]
  | Quantity.energyVsSum => [(live.energyOf p n, live.sumPe n)]

/-- Result of one check: a passed fatal assertion, a failed (fatal)
assertion, or a comparison that recorded `n` tolerance violations. -/
inductive CheckResult
  | ok
  | fatalAssert
  | deviations (n : ℕ)
deriving DecidableEq

/-- Evaluate a single check against the live state.  `ASSERT_EQ` checks are
fatal on failure; `EXPECT_FP_LE_WITH_EPS` comparisons count violations at
tolerance `k * baseTol` and never abort. -/
def runCheck (m : Mode) (cfg : TestConfig) (live : LiveState) : Check → CheckResult
  | Check.assertNatomsNlocal =>
      if live.natoms = live.nlocal then CheckResult.ok else CheckResult.fatalAssert
  | Check.assertForcesLen r =>
      if (refForces cfg r).length = live.nlocal + 1 then CheckResult.ok
      else CheckResult.fatalAssert
  | Check.compare p n q r k =>
      CheckResult.deviations
        (toleranceViolations (comparePairs cfg live p n q r) (k * baseTol m cfg))

/-- Run a check list in order.  A failed `ASSERT` stops the test body
(gtest `ASSERT_*` returns from the test function), so everything after it
is dropped; comparisons record their violations and continue. -/
def execChecks (m : Mode) (cfg : TestConfig) (live : LiveState) :
    List Check → List (Check × CheckResult)
  | [] => []
  | c :: rest =>
      let r := runCheck m cfg live c
      if r = CheckResult.fatalAssert then [(c, r)]
      else (c, r) :: execChecks m cfg live rest

/-! ### Command model for the scenario driver -/

/-- One engine command issued by the driver, tagged by the issuing call
site so that occurrences are unambiguous. -/
inductive Cmd
  | clear
  | readRestart (f : String)
  | angleStyle (s : String)
  | angleCoeff (s : String)
  | varCmd (s : String)
  | inputFile (f : String)
  | run0
  | writeRestart (f : String)
  | writeData (f : String)
  | writeCoeff (f : String)
  | other (s : String)
deriving DecidableEq

/-- Engine-build capabilities as seen by `init_lammps`: the `Info::has_style`
oracle and the suffix state set by the command line (`-sf omp` in the
threaded test). -/
structure EngineBuild where
  hasStyle : String → String → Bool
  suffixEnable : Bool
  suffix : String

/-- The style name whose availability is checked for one prerequisite:
for category `"angle"` with suffixes enabled, the suffix is appended
(lines 66-73). -/
def prereqStyleName (b : EngineBuild) (p : String × String) : String :=
  if p.1 = "angle" ∧ b.suffixEnable = true then p.2 ++ "/" ++ b.suffix else p.2

/-- Whether one prerequisite is satisfied by the build (line 75). -/
def prereqOk (b : EngineBuild) (p : String × String) : Bool :=
  b.hasStyle p.1 (prereqStyleName b p)

/-- The command sequence `init_lammps` issues once prerequisites pass
(lines 83-119). -/
def initCmds (cfg : TestConfig) (newton : Bool) : List Cmd :=
  [Cmd.varCmd (String.append "newton_bond " (if newton then "on" else "off")),
   Cmd.varCmd "input_dir"]
  ++ cfg.pre_commands.map Cmd.other
  ++ [Cmd.inputFile cfg.input_file,
      Cmd.angleStyle cfg.angle_style]
  ++ cfg.angle_coeff.map Cmd.angleCoeff
  ++ cfg.post_commands.map Cmd.other
  ++ [Cmd.run0,
      Cmd.writeRestart (cfg.basename ++ ".restart"),
      Cmd.writeData (cfg.basename ++ ".data"),
      Cmd.writeCoeff (cfg.basename ++ "-coeffs.in")]

/-- `init_lammps` (lines 52-122): checks every prerequisite first and
returns the null sentinel — issuing no scenario command — when any is
unavailable; otherwise issues the full scenario command sequence. -/
def init_lammps (b : EngineBuild) (cfg : TestConfig) (newton : Bool) :
    Option (List Cmd) :=
  if cfg.prerequisites.all (prereqOk b) then some (initCmds cfg newton) else none

/-- `restart_lammps` (lines 134-155): clear, reload the snapshot, re-apply
the style name exactly when the restored state has no angle style
(`!lmp->force->angle`), re-apply the coefficients exactly when the style
is hybrid or cannot write its own coefficient data (`!angle->writedata`),
then re-run `post_commands` and settle with a zero-step run. -/
def restart_lammps (cfg : TestConfig) (angleRestored writedata : Bool) : List Cmd :=
  [Cmd.clear, Cmd.readRestart (cfg.basename ++ ".restart")]
  ++ (if angleRestored = false then [Cmd.angleStyle cfg.angle_style] else [])
  ++ (if startsWithHybrid cfg.angle_style = true ∨ writedata = false then
        cfg.angle_coeff.map Cmd.angleCoeff
      else [])
  ++ (cfg.post_commands.map Cmd.other ++ [Cmd.run0])

/-- The engine build a mode's test constructs: the threaded test passes
`-sf omp`, enabling the `omp` suffix; the plain test passes no suffix. -/
def buildFor (m : Mode) (hs : String → String → Bool) : EngineBuild :=
  match m with
  | Mode.serial => ⟨hs, false, "omp"⟩
  | Mode.threaded => ⟨hs, true, "omp"⟩

/-- Outcome of one mode's test body: a prerequisite skip (`GTEST_SKIP`)
or a completed run with its recorded check results. -/
inductive ModeOutcome
  | skip
  | ran (rs : List (Check × CheckResult))
deriving DecidableEq

/-- One mode's test body: initialize; on the null sentinel skip the whole
mode, otherwise run the mode's check list. -/
def runMode (hs : String → String → Bool) (cfg : TestConfig) (live : LiveState)
    (m : Mode) : ModeOutcome :=
  match init_lammps (buildFor m hs) cfg true with
  | none => ModeOutcome.skip
  | some _ => ModeOutcome.ran (execChecks m cfg live (checks m cfg.angle_style))

/-! ### Selectors over check lists -/

/-- Tolerance factors (multiples of the mode's base tolerance) of the
comparisons at a given path, newton flag and quantity, in source order. -/
def compareFactors (l : List Check) (p : Path) (n : Bool) (q : Quantity) : List ℚ :=
  l.filterMap (fun c =>
    match c with
    | Check.compare p2 n2 q2 _ k =>
        if p2 = p ∧ n2 = n ∧ q2 = q then some k else none
    | _ => none)

/-- Reference tags of the comparisons at a given path, newton flag and
quantity, in source order. -/
def compareRefs (l : List Check) (p : Path) (n : Bool) (q : Quantity) : List Reference :=
  l.filterMap (fun c =>
    match c with
    | Check.compare p2 n2 q2 r _ =>
        if p2 = p ∧ n2 = n ∧ q2 = q then some r else none
    | _ => none)

/-- Actual tolerances of every stress comparison in a mode's check list. -/
def stressTols (m : Mode) (style : String) (cfg : TestConfig) : List ℚ :=
  (checks m style).filterMap (fun c =>
    match c with
    | Check.compare _ _ Quantity.stress _ k => some (k * baseTol m cfg)
    | _ => none)

/-- The (quantity, reference, factor) triples of all comparisons on the
restart-reload and data-file-reload paths. -/
def reloadCompares (l : List Check) : List (Quantity × Reference × ℚ) :=
  l.filterMap (fun c =>
    match c with
    | Check.compare p2 _ q r k =>
        if p2 = Path.restartReload ∨ p2 = Path.dataReload then some (q, r, k) else none
    | _ => none)

/-! ### Concrete example scenario values (spec section 8) -/

/-- Expected reference energy `1.2345678901234e+01`. -/
def exExpected : ℚ := 12345678901234 / 1000000000000

/-- Live value `1.2345678001234e+01`, within tolerance. -/
def exAccept : ℚ := 12345678001234 / 1000000000000

/-- Live value `1.2345779901234e+01`, outside tolerance. -/
def exReject : ℚ := 12345779901234 / 1000000000000

/-- Tolerance `epsilon = 1e-7`. -/
def exEps : ℚ := 1 / 10000000

/-- Selector: tolerance factors of the redundant-computation energy
cross-checks (style energy vs. the `compute reduce sum c_pe` scalar). -/
def crossCheckFactors (l : List Check) (n : Bool) : List ℚ :=
  l.filterMap (fun c =>
    match c with
    | Check.compare Path.shortRun n2 Quantity.energyVsSum _ k =>
        if n2 = n then some k else none
    | _ => none)

/-- A small concrete scenario used to instantiate theorems that carry
hypotheses. -/
def cfgW : TestConfig :=
  ⟨1, [("angle", "harmonic")], [], [], "in.angle", "harmonic", ["1 110.1 120.0"], [],
   2, 0, 0, ⟨0, 0, 0, 0, 0, 0⟩, ⟨0, 0, 0, 0, 0, 0⟩,
   [⟨0, 0, 0⟩, ⟨0, 0, 0⟩, ⟨0, 0, 0⟩], [⟨0, 0, 0⟩, ⟨0, 0, 0⟩, ⟨0, 0, 0⟩],
   "angle-harmonic"⟩

/-- A live state satisfying every structural assertion of `cfgW`. -/
def liveOk : LiveState :=
  ⟨2, 2, fun i => i + 1, fun _ _ _ => ⟨0, 0, 0⟩, fun _ _ => ⟨0, 0, 0, 0, 0, 0⟩,
   fun _ _ => 0, fun _ => 0⟩

/-- A live state violating the structural precondition (`natoms ≠ nlocal`). -/
def liveBad : LiveState :=
  ⟨3, 2, fun i => i + 1, fun _ _ _ => ⟨0, 0, 0⟩, fun _ _ => ⟨0, 0, 0, 0, 0, 0⟩,
   fun _ _ => 0, fun _ => 0⟩

/-! ### Theorems -/

/-- C1: the comparator accepts a (live, expected) pair at tolerance `tol`
iff `|live − expected| ≤ tol × max(1, |expected|)`; with `epsilon = 1e-7`
and expected `init_energy = 1.2345678901234e+01` it accepts
`1.2345678001234e+01`, rejects `1.2345779901234e+01`, and reports exactly
one tolerance violation for the rejected value. -/
theorem c1_comparator_bound :
    (∀ live expected tol : ℚ,
        fpLeWithEps live expected tol = true
          ↔ |live - expected| ≤ tol * max 1 |expected|)
    ∧ fpLeWithEps exAccept exExpected exEps = true
    ∧ fpLeWithEps exReject exExpected exEps = false
    ∧ toleranceViolations [(exAccept, exExpected), (exReject, exExpected)] exEps = 1 := by
  have hmax : exEps * max 1 |exExpected| = 12345678901234 / 10000000000000000000 := by
    rw [abs_of_nonneg (by norm_num [exExpected]),
        max_eq_right (by norm_num [exExpected] : (1 : ℚ) ≤ exExpected)]
    norm_num [exEps, exExpected]
  have hacc : fpLeWithEps exAccept exExpected exEps = true := by
    have habs : |exAccept - exExpected| = 9 / 10000000 := by
      rw [show exAccept - exExpected = -(9 / 10000000 : ℚ) by
            norm_num [exAccept, exExpected],
          abs_neg, abs_of_nonneg (by norm_num)]
    simp only [fpLeWithEps, decide_eq_true_eq, habs, hmax]
    norm_num
  have hrej : fpLeWithEps exReject exExpected exEps = false := by
    have habs : |exReject - exExpected| = 101 / 1000000 := by
      rw [show exReject - exExpected = (101 / 1000000 : ℚ) by
            norm_num [exReject, exExpected],
          abs_of_nonneg (by norm_num)]
    simp only [fpLeWithEps, decide_eq_false_iff_not, habs, hmax]
    norm_num
  refine ⟨fun live expected tol => by simp [fpLeWithEps], hacc, hrej, ?_⟩
  simp [toleranceViolations, List.filter, hacc, hrej]

/-- C2 counterexample: in the serial mode the fresh-init stress comparison
uses the base tolerance with the newton flag on but twice the base
tolerance with the flag off (lines 390-395 vs 459-464), so the two flag
settings are not compared at the same tolerance. -/
theorem c2_counterexample :
    compareFactors plainChecks Path.freshInit true Quantity.stress = [1]
    ∧ compareFactors plainChecks Path.freshInit false Quantity.stress = [2]
    ∧ compareFactors plainChecks Path.freshInit false Quantity.stress
        ≠ compareFactors plainChecks Path.freshInit true Quantity.stress := by
  decide

/-- C2 (amended): both flag settings of the fresh-init run are compared
against the same `init_energy`/`init_stress`/`init_forces` references;
energy and forces use the mode's base tolerance in both settings, while
stress uses the base tolerance with the flag on but 2× the base with the
flag off in serial mode, and 10× the base in both settings in threaded
mode. -/
theorem c2_flag_invariance_amended (style : String) (n : Bool) :
    compareRefs plainChecks Path.freshInit n Quantity.energy = [Reference.initE]
    ∧ compareRefs plainChecks Path.freshInit n Quantity.stress = [Reference.initS]
    ∧ compareRefs plainChecks Path.freshInit n Quantity.forces = [Reference.initF]
    ∧ compareFactors plainChecks Path.freshInit n Quantity.energy = [1]
    ∧ compareFactors plainChecks Path.freshInit n Quantity.forces = [1]
    ∧ compareFactors plainChecks Path.freshInit true Quantity.stress = [1]
    ∧ compareFactors plainChecks Path.freshInit false Quantity.stress = [2]
    ∧ compareRefs (ompChecks style) Path.freshInit n Quantity.energy = [Reference.initE]
    ∧ compareRefs (ompChecks style) Path.freshInit n Quantity.stress = [Reference.initS]
    ∧ compareRefs (ompChecks style) Path.freshInit n Quantity.forces = [Reference.initF]
    ∧ compareFactors (ompChecks style) Path.freshInit n Quantity.energy = [1]
    ∧ compareFactors (ompChecks style) Path.freshInit n Quantity.forces = [1]
    ∧ compareFactors (ompChecks style) Path.freshInit n Quantity.stress = [10] := by
  cases h : startsWithHybrid style <;> cases n <;> simp only [ompChecks, h] <;> decide

/-- C3 counterexample: in the threaded mode the post-run stress comparison
uses 10× the mode's base tolerance (lines 658-663), not the base
tolerance. -/
theorem c3_counterexample :
    compareFactors (ompChecks "harmonic") Path.shortRun true Quantity.stress = [10]
    ∧ compareFactors (ompChecks "harmonic") Path.shortRun true Quantity.stress ≠ [1] := by
  decide

/-- C3 (amended): after the short-run path, run forces are checked at 10×
the mode's base tolerance in both modes; run stress is checked at exactly
the base tolerance in the serial mode but at 10× the base tolerance in
the threaded mode. -/
theorem c3_run_tolerances_amended (style : String) (n : Bool) :
    compareFactors plainChecks Path.shortRun n Quantity.forces = [10]
    ∧ compareFactors plainChecks Path.shortRun n Quantity.stress = [1]
    ∧ compareRefs plainChecks Path.shortRun n Quantity.forces = [Reference.runF]
    ∧ compareRefs plainChecks Path.shortRun n Quantity.stress = [Reference.runS]
    ∧ compareFactors (ompChecks style) Path.shortRun n Quantity.forces = [10]
    ∧ compareFactors (ompChecks style) Path.shortRun n Quantity.stress = [10]
    ∧ compareRefs (ompChecks style) Path.shortRun n Quantity.forces = [Reference.runF]
    ∧ compareRefs (ompChecks style) Path.shortRun n Quantity.stress = [Reference.runS] := by
  cases h : startsWithHybrid style <;> cases n <;> simp only [ompChecks, h] <;> decide

/-- C9: every comparison on the restart-reload and data-file-reload paths
checks forces, stress and energy against the `init_*` references at
exactly the mode's base tolerance (factor 1, no widening); these paths
exist only in the serial test. -/
theorem c9_reload_base_tolerance (style : String) :
    reloadCompares plainChecks =
      [(Quantity.forces, Reference.initF, 1), (Quantity.stress, Reference.initS, 1),
       (Quantity.energy, Reference.initE, 1), (Quantity.forces, Reference.initF, 1),
       (Quantity.stress, Reference.initS, 1), (Quantity.energy, Reference.initE, 1)]
    ∧ reloadCompares (ompChecks style) = [] := by
  cases h : startsWithHybrid style <;> simp only [ompChecks, h] <;> decide

/-- C6: the redundant-computation cross-check of the style energy against
the aggregate per-particle energy reduction runs at the mode's base
tolerance; it is unconditional in the serial mode, and in the threaded
mode it runs exactly when the style name does not begin with "hybrid". -/
theorem c6_energy_crosscheck (style : String) (n : Bool) :
    crossCheckFactors plainChecks n = [1]
    ∧ crossCheckFactors (ompChecks style) n =
        (if startsWithHybrid style = false then [1] else []) := by
  cases h : startsWithHybrid style <;> cases n <;> simp only [ompChecks, h] <;> decide

/-- C4: in every mode, the structural `natoms == nlocal` assertion is the
first check, before any value comparison; when it fails, the test body
aborts with only that fatal result recorded — no comparison runs and
nothing passes silently. -/
theorem c4_structural_precondition (m : Mode) (style : String) (cfg : TestConfig)
    (live : LiveState) (h : live.natoms ≠ live.nlocal) :
    (checks m style).head? = some Check.assertNatomsNlocal
    ∧ execChecks m cfg live (checks m style)
        = [(Check.assertNatomsNlocal, CheckResult.fatalAssert)] := by
  have hrc : runCheck m cfg live Check.assertNatomsNlocal = CheckResult.fatalAssert := by
    simp [runCheck, h]
  cases m
  · exact ⟨rfl, by simp [checks, plainChecks, execChecks, hrc]⟩
  · refine ⟨by simp [checks, ompChecks], ?_⟩
    simp [checks, ompChecks, execChecks, hrc]

/-- C10: the threaded mode's widened base tolerance is exactly
`5 × epsilon`, and each of its four stress comparisons (init and run, both
newton-flag settings) runs at `10 ×` that widened tolerance, i.e.
`50 × epsilon`. -/
theorem c10_threaded_stress_tolerance (style : String) (cfg : TestConfig) :
    baseTol Mode.threaded cfg = 5 * cfg.epsilon
    ∧ stressTols Mode.threaded style cfg = List.replicate 4 (50 * cfg.epsilon) := by
  refine ⟨rfl, ?_⟩
  cases h : startsWithHybrid style <;>
    simp [stressTols, checks, ompChecks, h, baseTol, List.replicate] <;>
    ring

/-- C4 witness: at a live state with `natoms = 3 ≠ 2 = nlocal`, the serial
check list aborts with only the structural fatal result. -/
theorem c4_witness :
    liveBad.natoms ≠ liveBad.nlocal
    ∧ ((checks Mode.serial "harmonic").head? = some Check.assertNatomsNlocal
       ∧ execChecks Mode.serial cfgW liveBad (checks Mode.serial "harmonic")
           = [(Check.assertNatomsNlocal, CheckResult.fatalAssert)]) :=
  ⟨by decide, c4_structural_precondition Mode.serial "harmonic" cfgW liveBad (by decide)⟩

/-- C5: in the restart-reload path the driver re-applies the style name
exactly when the restored snapshot carries no angle style, re-applies the
coefficient commands exactly when the style is "hybrid"-prefixed or the
restored style cannot write its own coefficient data, and in all cases
ends with the `post_commands` followed by the zero-step settle. -/
theorem c5_restart_reapplication (cfg : TestConfig) (angleRestored writedata : Bool) :
    (Cmd.angleStyle cfg.angle_style ∈ restart_lammps cfg angleRestored writedata
       ↔ angleRestored = false)
    ∧ (∀ c, Cmd.angleCoeff c ∈ restart_lammps cfg angleRestored writedata
       ↔ ((startsWithHybrid cfg.angle_style = true ∨ writedata = false)
           ∧ c ∈ cfg.angle_coeff))
    ∧ (cfg.post_commands.map Cmd.other ++ [Cmd.run0])
        <:+ restart_lammps cfg angleRestored writedata := by
  refine ⟨?_, fun c => ?_, ?_⟩
  · by_cases h : startsWithHybrid cfg.angle_style = true ∨ writedata = false <;>
      cases angleRestored <;> simp [restart_lammps, h]
  · by_cases h : startsWithHybrid cfg.angle_style = true ∨ writedata = false <;>
      cases angleRestored <;> simp [restart_lammps, h]
  · simp only [restart_lammps]
    exact List.suffix_append _ _

/-- C7: initialization returns the null sentinel — carrying no scenario
command sequence — exactly when some prerequisite is unavailable in the
build, in which case the whole mode's test body is a skip outcome; and
availability of an "angle"-category prerequisite is checked under the
suffixed name `name/omp` in the threaded mode and under the plain name in
the serial mode. -/
theorem c7_prerequisite_skip (hs : String → String → Bool) (cfg : TestConfig)
    (live : LiveState) (m : Mode) :
    (∀ nb : Bool, init_lammps (buildFor m hs) cfg nb = none
       ↔ ∃ p ∈ cfg.prerequisites, prereqOk (buildFor m hs) p = false)
    ∧ (runMode hs cfg live m = ModeOutcome.skip
       ↔ init_lammps (buildFor m hs) cfg true = none)
    ∧ (∀ s, prereqStyleName (buildFor Mode.threaded hs) ("angle", s) = s ++ "/omp"
         ∧ prereqStyleName (buildFor Mode.serial hs) ("angle", s) = s) := by
  refine ⟨fun nb => ?_, ?_, fun s => ⟨?_, ?_⟩⟩
  · constructor
    · intro hn
      rcases h : cfg.prerequisites.all (prereqOk (buildFor m hs)) with _ | _
      · have hex := List.all_eq_false.mp h
        rcases hex with ⟨p, hp, hpf⟩
        exact ⟨p, hp, by simpa using hpf⟩
      · simp only [init_lammps, h, if_true] at hn
        simp at hn
    · intro hex
      rcases hex with ⟨p, hp, hpf⟩
      have hall : cfg.prerequisites.all (prereqOk (buildFor m hs)) = false :=
        List.all_eq_false.mpr ⟨p, hp, by simp [hpf]⟩
      simp [init_lammps, hall]
  · rcases h : init_lammps (buildFor m hs) cfg true with _ | cmds <;>
      simp [runMode, h]
  · simp only [prereqStyleName, buildFor]
    rw [if_pos ⟨trivial, trivial⟩, String.append_assoc]
    rfl
  · simp [prereqStyleName, buildFor]

/-- C8 counterexample: the threaded test iterates over the `init_forces`
reference (fresh-init forces comparison) without ever asserting its
length. -/
theorem c8_counterexample :
    Check.compare Path.freshInit true Quantity.forces Reference.initF 1
        ∈ ompChecks "harmonic"
    ∧ Check.assertForcesLen Reference.initF ∉ ompChecks "harmonic" := by
  decide

/-- C8 (amended): in the serial mode every forces iteration is preceded by
a length assertion on its reference (`init_forces` before the fresh-init,
restart and data-reload iterations; `run_forces` before the run
iterations), and a serial pass that completes without a fatal assertion
guarantees `len(init_forces) = len(run_forces) = natoms + 1`; in the
threaded mode only the `run_forces` length is asserted, before the run
iterations, while `init_forces` is iterated without any length
assertion. -/
theorem c8_forces_length_amended (cfg : TestConfig) (live : LiveState)
    (hno : ∀ pr ∈ execChecks Mode.serial cfg live plainChecks,
        pr.2 ≠ CheckResult.fatalAssert) :
    (live.natoms = live.nlocal
     ∧ cfg.init_forces.length = live.natoms + 1
     ∧ cfg.run_forces.length = live.natoms + 1)
    ∧ (plainChecks.indexOf (Check.assertForcesLen Reference.initF)
         < plainChecks.indexOf
             (Check.compare Path.freshInit true Quantity.forces Reference.initF 1)
       ∧ plainChecks.indexOf (Check.assertForcesLen Reference.initF)
         < plainChecks.indexOf
             (Check.compare Path.freshInit false Quantity.forces Reference.initF 1)
       ∧ plainChecks.indexOf (Check.assertForcesLen Reference.initF)
         < plainChecks.indexOf
             (Check.compare Path.restartReload false Quantity.forces Reference.initF 1)
       ∧ plainChecks.indexOf (Check.assertForcesLen Reference.initF)
         < plainChecks.indexOf
             (Check.compare Path.dataReload false Quantity.forces Reference.initF 1)
       ∧ plainChecks.indexOf (Check.assertForcesLen Reference.runF)
         < plainChecks.indexOf
             (Check.compare Path.shortRun true Quantity.forces Reference.runF 10)
       ∧ plainChecks.indexOf (Check.assertForcesLen Reference.runF)
         < plainChecks.indexOf
             (Check.compare Path.shortRun false Quantity.forces Reference.runF 10))
    ∧ (∀ style, Check.assertForcesLen Reference.initF ∉ ompChecks style
         ∧ (ompChecks style).indexOf (Check.assertForcesLen Reference.runF)
             < (ompChecks style).indexOf
                 (Check.compare Path.shortRun true Quantity.forces Reference.runF 10)) := by
  refine ⟨?_, by decide, ?_⟩
  · by_cases h1 : live.natoms = live.nlocal
    · by_cases h2 : cfg.init_forces.length = live.nlocal + 1
      · by_cases h3 : cfg.run_forces.length = live.nlocal + 1
        · exact ⟨h1, by rw [h1]; exact h2, by rw [h1]; exact h3⟩
        · exact absurd rfl
            (hno (Check.assertForcesLen Reference.runF, CheckResult.fatalAssert)
              (by simp [execChecks, plainChecks, runCheck, refForces, h1, h2, h3]))
      · exact absurd rfl
          (hno (Check.assertForcesLen Reference.initF, CheckResult.fatalAssert)
            (by simp [execChecks, plainChecks, runCheck, refForces, h1, h2]))
    · exact absurd rfl
        (hno (Check.assertNatomsNlocal, CheckResult.fatalAssert)
          (by simp [execChecks, plainChecks, runCheck, h1]))
  · intro style
    cases h : startsWithHybrid style <;> simp only [ompChecks, h] <;> decide

/-- C8 witness: on `cfgW` with matching live state the serial pass has no
fatal assertion, and both force references have length `natoms + 1 = 3`. -/
theorem c8_witness :
    (∀ pr ∈ execChecks Mode.serial cfgW liveOk plainChecks,
        pr.2 ≠ CheckResult.fatalAssert)
    ∧ ((liveOk.natoms = liveOk.nlocal
        ∧ cfgW.init_forces.length = liveOk.natoms + 1
        ∧ cfgW.run_forces.length = liveOk.natoms + 1)
       ∧ (plainChecks.indexOf (Check.assertForcesLen Reference.initF)
            < plainChecks.indexOf
                (Check.compare Path.freshInit true Quantity.forces Reference.initF 1)
          ∧ plainChecks.indexOf (Check.assertForcesLen Reference.initF)
            < plainChecks.indexOf
                (Check.compare Path.freshInit false Quantity.forces Reference.initF 1)
          ∧ plainChecks.indexOf (Check.assertForcesLen Reference.initF)
            < plainChecks.indexOf
                (Check.compare Path.restartReload false Quantity.forces Reference.initF 1)
          ∧ plainChecks.indexOf (Check.assertForcesLen Reference.initF)
            < plainChecks.indexOf
                (Check.compare Path.dataReload false Quantity.forces Reference.initF 1)
          ∧ plainChecks.indexOf (Check.assertForcesLen Reference.runF)
            < plainChecks.indexOf
                (Check.compare Path.shortRun true Quantity.forces Reference.runF 10)
          ∧ plainChecks.indexOf (Check.assertForcesLen Reference.runF)
            < plainChecks.indexOf
                (Check.compare Path.shortRun false Quantity.forces Reference.runF 10))
       ∧ (∀ style, Check.assertForcesLen Reference.initF ∉ ompChecks style
            ∧ (ompChecks style).indexOf (Check.assertForcesLen Reference.runF)
                < (ompChecks style).indexOf
                    (Check.compare Path.shortRun true Quantity.forces Reference.runF 10))) :=
  ⟨by decide, c8_forces_length_amended cfgW liveOk (by decide)⟩

end AngleTest
